import Mathlib

/-!
Verification development for the Espaço Vital therapist directory
(`backend/terapeutas` and `backend/core`).

The Django views and models are shallowly embedded as pure Lean functions:

* a queryset is a `List Terapeuta` obtained from a `Catalog` snapshot;
* SQL aggregates (`Avg`, `Count`) are computed per therapist over the
  `avaliacoes` table (join-multiplicity artefacts of the SQL backend are
  abstracted away; relations are modelled set-like, so `distinct()` is the
  identity);
* `ORDER BY` follows PostgreSQL semantics (the configured backend in
  `espacovital/settings.py`): descending keys place SQL `NULL` first, which
  is modelled by mapping each sort key into a lexicographic product with a
  linear order and sorting ascending by that key;
* Python exceptions that the views catch (`ValueError` from non-numeric
  identifiers, `DoesNotExist`) are modelled with `Option`/`Except` at the
  exact points where the source raises and catches them.
-/

/-! ## Small helpers modelling Python / Django primitives -/

/-- ASCII whitespace test (the whitespace Python `strip` removes on the
inputs considered here). -/
def isWs (c : Char) : Bool :=
  c == ' ' || c == '\t' || c == '\n' || c == '\r'

/-- Drop leading and trailing whitespace from a character list. -/
def trimChars (l : List Char) : List Char :=
  ((l.dropWhile isWs).reverse.dropWhile isWs).reverse

/-- Models Python `s.strip()`. -/
def pyStrip (s : String) : String :=
  String.mk (trimChars s.toList)

/-- Decimal value of a digit list. -/
def digitsToNat (l : List Char) : Nat :=
  l.foldl (fun acc c => acc * 10 + (c.toNat - 48)) 0

/-- Models Python `int(s)` on a decimal string: surrounding whitespace and an
optional sign are accepted, anything else raises `ValueError` (here: `none`). -/
def pyIntOpt (s : String) : Option Int :=
  let t := trimChars s.toList
  match t with
  | '-' :: ds => if ds ≠ [] ∧ ds.all (·.isDigit) then some (-(digitsToNat ds : Int)) else none
  | '+' :: ds => if ds ≠ [] ∧ ds.all (·.isDigit) then some ((digitsToNat ds : Int)) else none
  | ds => if ds ≠ [] ∧ ds.all (·.isDigit) then some ((digitsToNat ds : Int)) else none

/-- Case-folded character list of a string. -/
def lowerChars (s : String) : List Char :=
  s.toList.map Char.toLower

/-- Boolean test that `pat` begins `l`. -/
def beginsWith : List Char → List Char → Bool
  | [], _ => true
  | _ :: _, [] => false
  | a :: as, b :: bs => a == b && beginsWith as bs

/-- Boolean substring test on character lists. -/
def hasSub (pat : List Char) : List Char → Bool
  | [] => beginsWith pat []
  | c :: cs => beginsWith pat (c :: cs) || hasSub pat cs

/-- Models Django `icontains`: case-insensitive substring match. -/
def icontains (hay needle : String) : Bool :=
  hasSub (lowerChars needle) (lowerChars hay)

/-- Python bankers rounding of a rational to the nearest integer. The
fractional part `q - ⌊q⌋` is compared with `1/2` via the equivalent integer
comparison of `2q` with `2⌊q⌋ + 1` (kept kernel-reducible by using `mkRat`
instead of rational field operations). -/
def roundHalfEvenInt (q : Rat) : Int :=
  let f : Int := Int.fdiv q.num (q.den : Int)
  let twice : Rat := mkRat (2 * q.num) q.den
  let mid : Rat := mkRat (2 * f + 1) 1
  if twice < mid then f
  else if mid < twice then f + 1
  else if f % 2 = 0 then f else f + 1

/-- Models Python `round(q, 1)`: bankers rounding to one decimal. -/
def round1 (q : Rat) : Rat :=
  mkRat (roundHalfEvenInt (mkRat (10 * q.num) q.den)) 10

/-! ## Data model (`terapeutas/models.py`) -/

/-- `SessionType.choices` first components. -/
def sessionTypeChoices : List String := ["presencial", "online", "domicilio"]

/-- `ProfileType.choices` first components. -/
def profileTypeChoices : List String := ["individual", "espacos"]

/-- `ClientType.choices` first components. -/
def clientTypeChoices : List String := ["qualquer_um", "adultos", "criancas", "idosos", "casais", "grupos"]

/-- Row of `Estado`. -/
structure Estado where
  id : Nat
  nome : String := ""
  sigla : String := ""
deriving DecidableEq, Repr

/-- Row of `Cidade` (`estado` is a mandatory foreign key). -/
structure Cidade where
  id : Nat
  nome : String := ""
  estado_id : Nat
deriving DecidableEq, Repr

/-- Row of `Especialidade` (fields the views consult). -/
structure Especialidade where
  id : Nat
  nome : String := ""
  slug : String := ""
  is_active : Bool := true
deriving DecidableEq, Repr

/-- Row of `Terapeuta`; field defaults follow the model declaration.
`cidade_id` is a nullable foreign key; `especialidade_ids` models the
`especialidades` many-to-many relation; `created_at` is an abstract
timestamp. -/
structure Terapeuta where
  id : Nat
  nome_completo : String := ""
  nome_exibicao : String := ""
  cidade_id : Option Nat := none
  especialidade_ids : List Nat := []
  tipos_sessao : List String := []
  tipo_perfil : String := "individual"
  para_quem : String := "qualquer_um"
  acessibilidade : Bool := false
  bio_curta : String := ""
  bio_completa : String := ""
  experiencia_anos : Nat := 0
  verificado : Bool := false
  destaque : Bool := false
  premium : Bool := false
  visualizacoes : Nat := 0
  total_contatos : Nat := 0
  created_at : Nat := 0
  is_active : Bool := true
deriving DecidableEq, Repr

/-- Row of `Avaliacao` (fields the aggregates consult). -/
structure Avaliacao where
  id : Nat
  terapeuta_id : Nat
  cliente_id : Nat := 0
  nota : Nat
  is_active : Bool := true
deriving DecidableEq, Repr

/-- A snapshot of the relational store. -/
structure Catalog where
  terapeutas : List Terapeuta := []
  cidades : List Cidade := []
  estados : List Estado := []
  especialidades : List Especialidade := []
  avaliacoes : List Avaliacao := []
deriving Repr

/-! ## Query-time aggregates -/

/-- The `media_avaliacoes=Avg('avaliacoes__nota')` annotation of
`TerapeutaListView.get_queryset`: the mean score over ALL related reviews
(the source applies no `is_active` filter here); SQL `AVG` of an empty set
is `NULL`, modelled as `none`. -/
def mediaAvaliacoes (db : Catalog) (t : Terapeuta) : Option Rat :=
  let notas := (db.avaliacoes.filter (fun a => a.terapeuta_id == t.id)).map (·.nota)
  if notas.isEmpty then none
  else some (mkRat (notas.sum : Int) notas.length)

/-- The `total_avaliacoes=Count('avaliacoes', filter=Q(avaliacoes__is_active=True))`
annotation: active reviews only. -/
def totalAvaliacoesAnnot (db : Catalog) (t : Terapeuta) : Nat :=
  (db.avaliacoes.filter (fun a => a.terapeuta_id == t.id && a.is_active)).length

/-- The model property `Terapeuta.rating_medio`: mean of ACTIVE reviews,
rounded to one decimal; `0.0` when there are none. -/
def ratingMedio (db : Catalog) (t : Terapeuta) : Rat :=
  let notas := (db.avaliacoes.filter (fun a => a.terapeuta_id == t.id && a.is_active)).map (·.nota)
  if notas.isEmpty then 0
  else round1 (mkRat (notas.sum : Int) notas.length)

/-- The model property `Terapeuta.total_avaliacoes`: count of active reviews. -/
def totalAvaliacoesProp (db : Catalog) (t : Terapeuta) : Nat :=
  (db.avaliacoes.filter (fun a => a.terapeuta_id == t.id && a.is_active)).length

/-! ## Request parameters (`request.GET`) -/

/-- The GET parameters `TerapeutaListView.get_queryset` reads. `none` models
an absent key; `getlist` keys are lists. -/
structure Params where
  tipos_sessao : List String := []
  cidade : Option String := none
  estado : Option String := none
  especialidades : List String := []
  acessibilidade : Option String := none
  perfil_profissional : Option String := none
  para_quem : Option String := none
  q : Option String := none
  ordenacao : Option String := none
deriving DecidableEq, Repr

/-! ## Filter stages of `TerapeutaListView.get_queryset` -/

/-- Session-type stage: the source loops over the selected values and, for
each one that is a valid `SessionType` choice, chains
`.filter(tipos_sessao__contains=[tipo])` (JSONB containment). -/
def tiposStage (tipos : List String) (ts : List Terapeuta) : List Terapeuta :=
  tipos.foldl
    (fun acc tipo =>
      if sessionTypeChoices.contains tipo then
        acc.filter (fun t => t.tipos_sessao.contains tipo)
      else acc)
    ts

/-- City stage: `filter(cidade_id=cidade_id)` inside `try/except ValueError`;
an absent or empty parameter is skipped, a non-numeric one raises and is
swallowed by the `except`. -/
def cidadeStage (cid : Option String) (ts : List Terapeuta) : List Terapeuta :=
  match cid with
  | none => ts
  | some s =>
    if s = "" then ts
    else
      match pyIntOpt s with
      | none => ts
      | some n => ts.filter (fun t => t.cidade_id.any (fun c => (c : Int) == n))

/-- Estado of a therapist via its city row. -/
def estadoOf (db : Catalog) (t : Terapeuta) : Option Nat :=
  match t.cidade_id with
  | none => none
  | some cid => (db.cidades.find? (fun c => c.id == cid)).map (·.estado_id)

/-- State stage: `filter(cidade__estado_id=estado_id)` inside
`try/except ValueError`. -/
def estadoStage (db : Catalog) (est : Option String) (ts : List Terapeuta) : List Terapeuta :=
  match est with
  | none => ts
  | some s =>
    if s = "" then ts
    else
      match pyIntOpt s with
      | none => ts
      | some n => ts.filter (fun t => (estadoOf db t).any (fun e => (e : Int) == n))

/-- Specialty stage: the source converts every selected id with `int(...)`
inside one `try`; a single malformed id raises `ValueError` and drops the
whole specialty filter. Otherwise `filter(especialidades__id__in=ids)`. -/
def espStage (esps : List String) (ts : List Terapeuta) : List Terapeuta :=
  if esps.isEmpty then ts
  else
    match esps.mapM pyIntOpt with
    | none => ts
    | some ids => ts.filter (fun t => t.especialidade_ids.any (fun e => ids.contains ((e : Nat) : Int)))

/-- Accessibility stage: only the exact value `"sim"` filters. -/
def acessStage (a : Option String) (ts : List Terapeuta) : List Terapeuta :=
  if a = some "sim" then ts.filter (·.acessibilidade) else ts

/-- Profile-type stage: applied only when the value is a valid
`ProfileType` choice. -/
def perfilStage (p : Option String) (ts : List Terapeuta) : List Terapeuta :=
  match p with
  | none => ts
  | some s =>
    if s = "" then ts
    else if profileTypeChoices.contains s then ts.filter (fun t => t.tipo_perfil == s)
    else ts

/-- Target-audience stage: applied only when the value is a valid
`ClientType` choice. -/
def paraQuemStage (p : Option String) (ts : List Terapeuta) : List Terapeuta :=
  match p with
  | none => ts
  | some s =>
    if s = "" then ts
    else if clientTypeChoices.contains s then ts.filter (fun t => t.para_quem == s)
    else ts

/-- Does some specialty of `t` have a name containing `s` (the
`especialidades__nome__icontains` branch of the free-text filter)? -/
def anySpecName (db : Catalog) (t : Terapeuta) (s : String) : Bool :=
  t.especialidade_ids.any (fun eid =>
    (db.especialidades.find? (fun e => e.id == eid)).any (fun e => icontains e.nome s))

/-- Free-text stage: OR of `icontains` over full name, display name, short
bio, long bio and specialty names. -/
def buscaStage (db : Catalog) (q : Option String) (ts : List Terapeuta) : List Terapeuta :=
  match q with
  | none => ts
  | some s =>
    if s = "" then ts
    else
      ts.filter (fun t =>
        icontains t.nome_completo s || icontains t.nome_exibicao s ||
        icontains t.bio_curta s || icontains t.bio_completa s || anySpecName db t s)

/-- The filtered (unordered) queryset of `TerapeutaListView.get_queryset`:
base filter `is_active=True` followed by all filter stages. -/
def filteredList (db : Catalog) (p : Params) : List Terapeuta :=
  let qs := db.terapeutas.filter (·.is_active)
  let qs := tiposStage p.tipos_sessao qs
  let qs := cidadeStage p.cidade qs
  let qs := estadoStage db p.estado qs
  let qs := espStage p.especialidades qs
  let qs := acessStage p.acessibilidade qs
  let qs := perfilStage p.perfil_profissional qs
  let qs := paraQuemStage p.para_quem qs
  buscaStage db p.q qs

/-! ## Ranking policy

Each `order_by` chain is mapped into a key function into a lexicographic
product of linear orders and the list is sorted ascending by that key.
Boolean flags map `True` before `False` (descending); `media_avaliacoes`
maps SQL `NULL` first (PostgreSQL places `NULL` first under `DESC`), then
larger averages first; numeric descending keys are negated. -/

/-- Descending boolean sort key: `True` first. -/
def boolKey (b : Bool) : Nat := if b then 0 else 1

/-- Sort key of a `-media_avaliacoes` term under PostgreSQL `DESC`
semantics: `NULL` first, then larger values first. -/
def mediaKey (m : Option Rat) : Lex (Nat × Rat) :=
  match m with
  | none => toLex (0, 0)
  | some q => toLex (1, -q)

/-- Key of the default relevance chain
`-destaque, -premium, -verificado, -media_avaliacoes, -created_at`. -/
def relevKey (db : Catalog) (t : Terapeuta) :
    Lex (Nat × Lex (Nat × Lex (Nat × Lex (Lex (Nat × Rat) × Int)))) :=
  toLex (boolKey t.destaque, toLex (boolKey t.premium, toLex (boolKey t.verificado,
    toLex (mediaKey (mediaAvaliacoes db t), -(t.created_at : Int)))))

/-- Key of `-media_avaliacoes, -total_avaliacoes`. -/
def melhorKey (db : Catalog) (t : Terapeuta) : Lex (Lex (Nat × Rat) × Int) :=
  toLex (mediaKey (mediaAvaliacoes db t), -(totalAvaliacoesAnnot db t : Int))

/-- Key of `-experiencia_anos`. -/
def expKey (t : Terapeuta) : Int := -(t.experiencia_anos : Int)

/-- Key of `nome_exibicao` ascending. -/
def nomeKey (t : Terapeuta) : String := t.nome_exibicao

/-- Comparison induced by a sort key. -/
def keyLe {α κ : Type} [LinearOrder κ] (f : α → κ) (a b : α) : Prop :=
  f a ≤ f b

instance keyLeDecidable {α κ : Type} [LinearOrder κ] (f : α → κ) : DecidableRel (keyLe f) :=
  fun a b => inferInstanceAs (Decidable (f a ≤ f b))

instance keyLeTotal {α κ : Type} [LinearOrder κ] (f : α → κ) : IsTotal α (keyLe f) :=
  ⟨fun a b => le_total (f a) (f b)⟩

instance keyLeTrans {α κ : Type} [LinearOrder κ] (f : α → κ) : IsTrans α (keyLe f) :=
  ⟨fun _ _ _ h h2 => le_trans h h2⟩

/-- Sorting a list ascending by a key (models SQL `ORDER BY`). -/
def sortByKey {α κ : Type} [LinearOrder κ] (f : α → κ) (l : List α) : List α :=
  l.insertionSort (keyLe f)

theorem sortByKey_perm {α κ : Type} [LinearOrder κ] (f : α → κ) (l : List α) :
    (sortByKey f l).Perm l :=
  List.perm_insertionSort _ l

theorem sortByKey_sorted {α κ : Type} [LinearOrder κ] (f : α → κ) (l : List α) :
    (sortByKey f l).Sorted (keyLe f) :=
  List.sorted_insertionSort _ l

/-- The ordering dispatch of `TerapeutaListView.get_queryset`: explicit sort
keys `melhor_avaliado`, `mais_experiente`, `nome`; anything else falls back
to the relevance chain. -/
def orderStage (db : Catalog) (ord : String) (ts : List Terapeuta) : List Terapeuta :=
  if ord = "melhor_avaliado" then sortByKey (melhorKey db) ts
  else if ord = "mais_experiente" then sortByKey expKey ts
  else if ord = "nome" then sortByKey nomeKey ts
  else sortByKey (relevKey db) ts

/-- The full queryset of `TerapeutaListView.get_queryset`:
`request.GET.get('ordenacao', 'relevancia')` defaults the sort key. -/
def getQueryset (db : Catalog) (p : Params) : List Terapeuta :=
  orderStage db (p.ordenacao.getD "relevancia") (filteredList db p)

/-! ## View `terapeutas_sem_filtro` -/

/-- Key of `-destaque, -premium, -verificado, -created_at`. -/
def semFiltroKey (t : Terapeuta) : Lex (Nat × Lex (Nat × Lex (Nat × Int))) :=
  toLex (boolKey t.destaque, toLex (boolKey t.premium, toLex (boolKey t.verificado,
    -(t.created_at : Int))))

/-- The simple listing view: active therapists, optionally narrowed to one
active specialty found by slug (`get_object_or_404` yields `none`, a 404,
when no active specialty has the slug), ordered by the fixed chain. -/
def terapeutasSemFiltro (db : Catalog) (espSlug : Option String) : Option (List Terapeuta) :=
  let base := db.terapeutas.filter (·.is_active)
  match espSlug with
  | none => some (sortByKey semFiltroKey base)
  | some slug =>
    match db.especialidades.find? (fun e => e.slug == slug && e.is_active) with
    | none => none
    | some esp => some (sortByKey semFiltroKey (base.filter (fun t => t.especialidade_ids.contains esp.id)))

/-! ## View `busca_terapeutas_ajax` -/

/-- Key of `-destaque, -premium, -media_avaliacoes`. -/
def ajaxKey (db : Catalog) (t : Terapeuta) : Lex (Nat × Lex (Nat × Lex (Nat × Rat))) :=
  toLex (boolKey t.destaque, toLex (boolKey t.premium, mediaKey (mediaAvaliacoes db t)))

/-- The autocomplete endpoint: a stripped query shorter than 2 characters
yields `[]`; otherwise active, verified therapists whose display name or
some specialty name contains the query, ordered by
`-destaque, -premium, -media_avaliacoes` and truncated to 8. -/
def buscaTerapeutasAjax (db : Catalog) (qRaw : String) : List Terapeuta :=
  let query := pyStrip qRaw
  if query.length < 2 then []
  else
    let ts := db.terapeutas.filter (fun t =>
      t.is_active && t.verificado &&
      (icontains t.nome_exibicao query || anySpecName db t query))
    (sortByKey (ajaxKey db) ts).take 8

/-- The `rating` field the endpoint serialises:
`float(media_avaliacoes) if media_avaliacoes else 0.0`. -/
def ajaxRating (db : Catalog) (t : Terapeuta) : Rat :=
  (mediaAvaliacoes db t).getD 0

/-! ## View `contatar_terapeuta` (`terapeutas/models.py` `Contato`) -/

/-- Row of `Contato`; `status` defaults to `"enviado"` per the model. -/
structure Contato where
  terapeuta_id : Nat
  nome : String
  email : String
  telefone : String := ""
  assunto : String
  mensagem : String
  especialidade_interesse : Option Nat := none
  status : String := "enviado"
  ip_origem : Option String := none
deriving DecidableEq, Repr

/-- The raw POST fields of the contact form. -/
structure ContactForm where
  nome : String := ""
  email : String := ""
  assunto : String := ""
  mensagem : String := ""
  telefone : String := ""
  especialidade_interesse : Option String := none
deriving DecidableEq, Repr

/-- Persistent state touched by `contatar_terapeuta`: the target therapist
row and the `Contato` table. -/
structure ContactState where
  terapeuta : Terapeuta
  contatos : List Contato := []
deriving DecidableEq, Repr

/-- Outcome of a POST to `contatar_terapeuta`: a success page, the
validation message for missing required fields, or the generic error
message from the outer `except Exception`. -/
inductive ContactOutcome where
  | success (c : Contato)
  | invalidForm
  | genericError
deriving DecidableEq, Repr

/-- The optional `especialidade_interesse` lookup:
`Especialidade.objects.get(id=..., is_active=True)`. A non-numeric id makes
Django raise `ValueError`, which the view's inner `except
Especialidade.DoesNotExist` does NOT catch; `DoesNotExist` is caught and
leaves the reference absent. -/
def espInterest (esps : List Especialidade) : Option String → Except String (Option Nat)
  | none => Except.ok none
  | some s =>
    if s = "" then Except.ok none
    else
      match pyIntOpt s with
      | none => Except.error "ValueError"
      | some n =>
        match esps.find? (fun e => ((e.id : Nat) : Int) == n && e.is_active) with
        | some e => Except.ok (some e.id)
        | none => Except.ok none

/-- POST handler of `contatar_terapeuta` for an existing active therapist:
strips the fields, rejects the form when a required one is empty, resolves
the optional specialty, then creates the `Contato` row and increments
`total_contatos` (saved with `update_fields=['total_contatos']`). -/
def contatarTerapeuta (esps : List Especialidade) (st : ContactState) (f : ContactForm)
    (ip : Option String) : ContactState × ContactOutcome :=
  let nome := pyStrip f.nome
  let email := pyStrip f.email
  let assunto := pyStrip f.assunto
  let mensagem := pyStrip f.mensagem
  let telefone := pyStrip f.telefone
  if nome = "" ∨ email = "" ∨ assunto = "" ∨ mensagem = "" then
    (st, ContactOutcome.invalidForm)
  else
    match espInterest esps f.especialidade_interesse with
    | Except.error _ => (st, ContactOutcome.genericError)
    | Except.ok espOpt =>
      let c : Contato :=
        { terapeuta_id := st.terapeuta.id, nome := nome, email := email,
          telefone := telefone, assunto := assunto, mensagem := mensagem,
          especialidade_interesse := espOpt, status := "enviado", ip_origem := ip }
      ({ terapeuta := { st.terapeuta with total_contatos := st.terapeuta.total_contatos + 1 },
         contatos := st.contatos ++ [c] },
       ContactOutcome.success c)

/-! ## `SiteConfiguration` (`core/models.py`) -/

/-- Row of `SiteConfiguration` (fields beyond the pk are represented by
`site_name`, which also carries its model default). -/
structure SiteConfig where
  pk : Nat
  site_name : String := "Espaço Vital"
deriving DecidableEq, Repr

/-- The `SiteConfiguration` table with the auto-increment counter. -/
structure ConfigDB where
  rows : List SiteConfig := []
  nextId : Nat := 1
deriving DecidableEq, Repr

/-- `SiteConfiguration.save`: an instance without a pk is rejected when a
row already exists; an instance with a pk updates the matching row or, when
none matches, is inserted (Django upsert on explicit pk) with no guard. -/
def scSave (db : ConfigDB) (self_pk : Option Nat) (name : String) : Except String ConfigDB :=
  match self_pk with
  | none =>
    if !db.rows.isEmpty then Except.error "Só pode existir uma configuração do site"
    else
      let row : SiteConfig := { pk := db.nextId, site_name := name }
      Except.ok { rows := db.rows ++ [row], nextId := db.nextId + 1 }
  | some k =>
    if db.rows.any (fun r => r.pk == k) then
      Except.ok { db with rows := db.rows.map (fun r => if r.pk == k then { r with site_name := name } else r) }
    else
      let row : SiteConfig := { pk := k, site_name := name }
      Except.ok { db with rows := db.rows ++ [row], nextId := max db.nextId (k + 1) }

/-- `SiteConfiguration.get_config`: `get_or_create(pk=1)`. The created
instance carries `pk = 1`, so `save` runs without the singleton guard. -/
def getConfig (db : ConfigDB) : ConfigDB × SiteConfig :=
  match db.rows.find? (fun r => r.pk == 1) with
  | some c => (db, c)
  | none =>
    let c : SiteConfig := { pk := 1 }
    ({ db with rows := db.rows ++ [c], nextId := max db.nextId 2 }, c)

/-- Operations of the intended configuration workflow: creating a fresh
(pk-less) instance and saving it, or reading through the accessor. -/
inductive ConfigOp where
  | saveNew
  | getCfg
deriving DecidableEq, Repr

/-- Run a sequence of workflow operations (a rejected save leaves the table
unchanged). -/
def runConfigOps : List ConfigOp → ConfigDB → ConfigDB
  | [], db => db
  | op :: rest, db =>
    runConfigOps rest
      (match op with
       | ConfigOp.saveNew =>
         match scSave db none "Espaço Vital" with
         | Except.ok d => d
         | Except.error _ => db
       | ConfigOp.getCfg => (getConfig db).1)

/-! ## Spec-side sanitiser (claim C6)

These definitions follow the spec wording: malformed filter values are
dropped, leaving only well-formed filters. -/

/-- Keep only valid session-type choices. -/
def sanTipos (l : List String) : List String :=
  l.filter (fun s => sessionTypeChoices.contains s)

/-- Keep a location id only when present, non-empty and numeric. -/
def sanNumId : Option String → Option String
  | none => none
  | some s => if s = "" then none else if (pyIntOpt s).isSome then some s else none

/-- Keep the specialty id list only when every id is numeric. -/
def sanEsps (l : List String) : List String :=
  if (l.mapM pyIntOpt).isSome then l else []

/-- Keep only the exact accessibility value `"sim"`. -/
def sanAcess (o : Option String) : Option String :=
  if o = some "sim" then some "sim" else none

/-- Keep only a valid choice from the given enumeration. -/
def sanChoice (choices : List String) : Option String → Option String
  | none => none
  | some s => if choices.contains s then some s else none

/-- Keep a non-empty free-text query. -/
def sanQ : Option String → Option String
  | none => none
  | some s => if s = "" then none else some s

/-- The parameter map with every malformed filter value dropped. -/
def sanitizeParams (p : Params) : Params :=
  { tipos_sessao := sanTipos p.tipos_sessao
    cidade := sanNumId p.cidade
    estado := sanNumId p.estado
    especialidades := sanEsps p.especialidades
    acessibilidade := sanAcess p.acessibilidade
    perfil_profissional := sanChoice profileTypeChoices p.perfil_profissional
    para_quem := sanChoice clientTypeChoices p.para_quem
    q := sanQ p.q
    ordenacao := p.ordenacao }

/-- Well-formedness of a parameter map: every present filter value is valid. -/
def WellFormedParams (p : Params) : Prop :=
  (∀ s ∈ p.tipos_sessao, s ∈ sessionTypeChoices) ∧
  (∀ s, p.cidade = some s → (pyIntOpt s).isSome = true) ∧
  (∀ s, p.estado = some s → (pyIntOpt s).isSome = true) ∧
  (p.especialidades.mapM pyIntOpt).isSome = true ∧
  (∀ s, p.acessibilidade = some s → s = "sim") ∧
  (∀ s, p.perfil_profissional = some s → s ∈ profileTypeChoices) ∧
  (∀ s, p.para_quem = some s → s ∈ clientTypeChoices) ∧
  p.q ≠ some ""

/-! ## Stage lemmas -/

theorem tiposStage_cons (a : String) (rest : List String) (ts : List Terapeuta) :
    tiposStage (a :: rest) ts =
      tiposStage rest
        (if sessionTypeChoices.contains a then
          ts.filter (fun t => t.tipos_sessao.contains a)
         else ts) := rfl

theorem mem_of_tiposStage {t : Terapeuta} :
    ∀ {tipos : List String} {ts : List Terapeuta}, t ∈ tiposStage tipos ts → t ∈ ts := by
  intro tipos
  induction tipos with
  | nil => intro ts h; exact h
  | cons a rest ih =>
    intro ts h
    rw [tiposStage_cons] at h
    have h2 := ih h
    by_cases hc : sessionTypeChoices.contains a
    · rw [if_pos hc] at h2
      exact List.mem_of_mem_filter h2
    · rwa [if_neg hc] at h2

theorem mem_of_cidadeStage {t : Terapeuta} {c : Option String} {ts : List Terapeuta}
    (h : t ∈ cidadeStage c ts) : t ∈ ts := by
  unfold cidadeStage at h
  split at h
  · exact h
  · split at h
    · exact h
    · split at h
      · exact h
      · exact List.mem_of_mem_filter h

theorem mem_of_estadoStage {db : Catalog} {t : Terapeuta} {c : Option String}
    {ts : List Terapeuta} (h : t ∈ estadoStage db c ts) : t ∈ ts := by
  unfold estadoStage at h
  split at h
  · exact h
  · split at h
    · exact h
    · split at h
      · exact h
      · exact List.mem_of_mem_filter h

theorem mem_of_espStage {t : Terapeuta} {esps : List String} {ts : List Terapeuta}
    (h : t ∈ espStage esps ts) : t ∈ ts := by
  unfold espStage at h
  by_cases he : esps.isEmpty
  · rwa [if_pos he] at h
  · rw [if_neg he] at h
    cases hm : esps.mapM pyIntOpt with
    | none => rwa [hm] at h
    | some ids => rw [hm] at h; exact List.mem_of_mem_filter h

theorem mem_of_acessStage {t : Terapeuta} {a : Option String} {ts : List Terapeuta}
    (h : t ∈ acessStage a ts) : t ∈ ts := by
  unfold acessStage at h
  by_cases ha : a = some "sim"
  · rw [if_pos ha] at h; exact List.mem_of_mem_filter h
  · rwa [if_neg ha] at h

theorem mem_of_perfilStage {t : Terapeuta} {p : Option String} {ts : List Terapeuta}
    (h : t ∈ perfilStage p ts) : t ∈ ts := by
  unfold perfilStage at h
  split at h
  · exact h
  · split at h
    · exact h
    · split at h
      · exact List.mem_of_mem_filter h
      · exact h

theorem mem_of_paraQuemStage {t : Terapeuta} {p : Option String} {ts : List Terapeuta}
    (h : t ∈ paraQuemStage p ts) : t ∈ ts := by
  unfold paraQuemStage at h
  split at h
  · exact h
  · split at h
    · exact h
    · split at h
      · exact List.mem_of_mem_filter h
      · exact h

theorem mem_of_buscaStage {db : Catalog} {t : Terapeuta} {q : Option String}
    {ts : List Terapeuta} (h : t ∈ buscaStage db q ts) : t ∈ ts := by
  unfold buscaStage at h
  split at h
  · exact h
  · split at h
    · exact h
    · exact List.mem_of_mem_filter h

theorem mem_of_filteredList {db : Catalog} {p : Params} {t : Terapeuta}
    (h : t ∈ filteredList db p) : t ∈ db.terapeutas.filter (·.is_active) := by
  unfold filteredList at h
  exact mem_of_tiposStage (mem_of_cidadeStage (mem_of_estadoStage (mem_of_espStage
    (mem_of_acessStage (mem_of_perfilStage (mem_of_paraQuemStage (mem_of_buscaStage h)))))))

/-! ## Ordering lemmas -/

/-- The ordering relation each recognised sort key induces (unrecognised
keys fall back to the relevance chain, as in the view). -/
def orderRel (db : Catalog) (ord : String) : Terapeuta → Terapeuta → Prop :=
  if ord = "melhor_avaliado" then keyLe (melhorKey db)
  else if ord = "mais_experiente" then keyLe expKey
  else if ord = "nome" then keyLe nomeKey
  else keyLe (relevKey db)

theorem orderStage_perm (db : Catalog) (ord : String) (ts : List Terapeuta) :
    (orderStage db ord ts).Perm ts := by
  unfold orderStage
  split_ifs <;> exact sortByKey_perm _ _

theorem orderStage_sorted (db : Catalog) (ord : String) (ts : List Terapeuta) :
    (orderStage db ord ts).Sorted (orderRel db ord) := by
  unfold orderStage orderRel
  split_ifs <;> exact sortByKey_sorted _ _

theorem getQueryset_perm (db : Catalog) (p : Params) :
    (getQueryset db p).Perm (filteredList db p) :=
  orderStage_perm db _ _

theorem lexHead_le {α β : Type} [LinearOrder α] [LinearOrder β] {a b : α} {x y : β}
    (h : toLex (a, x) ≤ toLex (b, y)) : a ≤ b := by
  rcases (Prod.Lex.le_iff (a, x) (b, y)).mp h with h1 | h1
  · exact le_of_lt h1
  · exact le_of_eq h1.1

theorem lex_le_of_eq_left {α β : Type} [LinearOrder α] [LinearOrder β] {a : α} {x y : β}
    (h : toLex (a, x) ≤ toLex (a, y)) : x ≤ y := by
  rcases (Prod.Lex.le_iff (a, x) (a, y)).mp h with h1 | h1
  · exact absurd h1 (lt_irrefl a)
  · exact h1.2

/-- A therapist with a numeric average never precedes-or-ties one with a
`NULL` average in the `mediaKey` component. -/
theorem mediaKey_some_not_le_none {x : Rat} (h : mediaKey (some x) ≤ mediaKey none) : False := by
  unfold mediaKey at h
  have h1 : (1 : Nat) ≤ 0 := lexHead_le h
  omega

theorem orderRel_melhor (db : Catalog) :
    orderRel db "melhor_avaliado" = keyLe (melhorKey db) := by
  unfold orderRel
  rw [if_pos rfl]

theorem orderRel_relevancia (db : Catalog) :
    orderRel db "relevancia" = keyLe (relevKey db) := by
  unfold orderRel
  rw [if_neg (by decide), if_neg (by decide), if_neg (by decide)]

/-- C4: for every combination of filter parameters and sort key, no endpoint
of the therapist search (advanced search, simple listing, autocomplete)
returns a therapist with `is_active = False`. -/
theorem c4_only_active :
    (∀ (db : Catalog) (p : Params) (t : Terapeuta),
        t ∈ getQueryset db p → t.is_active = true) ∧
    (∀ (db : Catalog) (s : Option String) (l : List Terapeuta) (t : Terapeuta),
        terapeutasSemFiltro db s = some l → t ∈ l → t.is_active = true) ∧
    (∀ (db : Catalog) (q : String) (t : Terapeuta),
        t ∈ buscaTerapeutasAjax db q → t.is_active = true) := by
  refine ⟨?_, ?_, ?_⟩
  · intro db p t ht
    have h1 : t ∈ filteredList db p := (getQueryset_perm db p).mem_iff.mp ht
    exact List.of_mem_filter (mem_of_filteredList h1)
  · intro db s l t hsf htl
    unfold terapeutasSemFiltro at hsf
    split at hsf
    · injection hsf with h
      rw [← h] at htl
      have h2 := (sortByKey_perm semFiltroKey _).mem_iff.mp htl
      exact List.of_mem_filter h2
    · split at hsf
      · exact absurd hsf (by simp)
      · injection hsf with h
        rw [← h] at htl
        have h2 := (sortByKey_perm semFiltroKey _).mem_iff.mp htl
        exact List.of_mem_filter (List.mem_of_mem_filter h2)
  · intro db q t ht
    simp only [buscaTerapeutasAjax] at ht
    split at ht
    · exact absurd ht (by simp)
    · have h1 := List.mem_of_mem_take ht
      have h2 := (sortByKey_perm _ _).mem_iff.mp h1
      have h3 := List.of_mem_filter h2
      simp only [Bool.and_eq_true] at h3
      exact h3.1.1

/-- Fixture: an inactive therapist that must never be listed. -/
def tInactive : Terapeuta :=
  { id := 9, nome_exibicao := "Zoe", verificado := true, is_active := false }

/-- Fixture: an active therapist. -/
def tActive : Terapeuta :=
  { id := 8, nome_exibicao := "Yan", verificado := true }

/-- Fixture: catalog mixing an active and an inactive therapist. -/
def dbC4 : Catalog := { terapeutas := [tInactive, tActive] }

theorem c4_only_active_witness : tActive.is_active = true :=
  c4_only_active.1 dbC4 {} tActive (by decide)

/-- C5: the search is a pure function of the catalog snapshot and the
parameters (two runs give the same ordered sequence), the result is a
permutation of the filtered set, and it is sorted by the total preorder the
requested sort key induces (every sort key, including the default, falls
into one of the four `orderRel` branches). -/
theorem c5_determinism (db : Catalog) (p : Params) :
    getQueryset db p = getQueryset db p ∧
    (getQueryset db p).Perm (filteredList db p) ∧
    (getQueryset db p).Sorted (orderRel db (p.ordenacao.getD "relevancia")) :=
  ⟨rfl, getQueryset_perm db p, orderStage_sorted db _ _⟩

/-! ## Claim C1: session-modality filtering -/

/-- Fixture: an active therapist offering only online sessions. -/
def tC1 : Terapeuta := { id := 1, nome_exibicao := "Ana", tipos_sessao := ["online"] }

/-- Fixture: a one-therapist catalog. -/
def dbC1 : Catalog := { terapeutas := [tC1] }

/-- Fixture: a multi-select session-modality request. -/
def pC1 : Params := { tipos_sessao := ["presencial", "online"] }

/-- C1: the code chains one `tipos_sessao__contains` filter per selected
modality, which is CONJUNCTIVE. A therapist offering `online`, one of the
two selected modalities, is dropped from the result — contradicting the
disjunctive contract (and the loop's own comment); the single-selection
case does behave as stated. -/
theorem c1_code_eval :
    tC1.is_active = true ∧
    "online" ∈ pC1.tipos_sessao ∧ "online" ∈ tC1.tipos_sessao ∧
    getQueryset dbC1 pC1 = [] ∧
    getQueryset dbC1 { tipos_sessao := ["online"] } = [tC1] ∧
    getQueryset dbC1 { tipos_sessao := ["presencial"] } = [] := by
  decide

/-! ## Claim C2: rating of zero-review therapists and its sort position -/

/-- Fixture: an active therapist with no reviews at all. -/
def tA2 : Terapeuta := { id := 1, nome_exibicao := "Ana" }

/-- Fixture: an active therapist with one active 5-star review. -/
def tB2 : Terapeuta := { id := 2, nome_exibicao := "Bia", created_at := 1 }

/-- Fixture: catalog with `tA2` (unrated) and `tB2` (rated 5). -/
def dbC2 : Catalog :=
  { terapeutas := [tB2, tA2],
    avaliacoes := [{ id := 1, terapeuta_id := 2, nota := 5 }] }

/-- C2 counterexample: `tA2` has zero (active) reviews, yet its query-time
computed rating is `NULL` (`none`), not 0, and under both the best-rated
and the default relevance ordering (all status flags equal) it sorts
strictly BEFORE `tB2`, whose average is 5 — PostgreSQL places `NULL` first
under a descending key. -/
theorem c2_counterexample :
    (dbC2.avaliacoes.filter (fun a => a.terapeuta_id == tA2.id && a.is_active)).length = 0 ∧
    mediaAvaliacoes dbC2 tA2 ≠ some 0 ∧
    mediaAvaliacoes dbC2 tA2 = none ∧
    mediaAvaliacoes dbC2 tB2 = some 5 ∧
    tA2.destaque = tB2.destaque ∧ tA2.premium = tB2.premium ∧
    tA2.verificado = tB2.verificado ∧
    getQueryset dbC2 { ordenacao := some "melhor_avaliado" } = [tA2, tB2] ∧
    getQueryset dbC2 {} = [tA2, tB2] := by
  decide

/-- C2 (amended): a therapist with no reviews has query-time computed
average `NULL` (`none`), not 0; under the best-rated ordering every
`NULL`-average therapist sorts at or BEFORE every therapist with a numeric
average, and under the default relevance ordering the same holds among
therapists with equal destaque/premium/verificado flags. -/
theorem c2_amended :
    (∀ (db : Catalog) (t : Terapeuta),
        db.avaliacoes.filter (fun a => a.terapeuta_id == t.id) = [] →
        mediaAvaliacoes db t = none) ∧
    (∀ (db : Catalog) (p : Params), p.ordenacao = some "melhor_avaliado" →
        ∀ (i j : Fin (getQueryset db p).length), i < j →
        mediaAvaliacoes db ((getQueryset db p).get j) = none →
        mediaAvaliacoes db ((getQueryset db p).get i) = none) ∧
    (∀ (db : Catalog) (p : Params), p.ordenacao = none →
        ∀ (i j : Fin (getQueryset db p).length), i < j →
        ((getQueryset db p).get i).destaque = ((getQueryset db p).get j).destaque →
        ((getQueryset db p).get i).premium = ((getQueryset db p).get j).premium →
        ((getQueryset db p).get i).verificado = ((getQueryset db p).get j).verificado →
        mediaAvaliacoes db ((getQueryset db p).get j) = none →
        mediaAvaliacoes db ((getQueryset db p).get i) = none) := by
  refine ⟨?_, ?_, ?_⟩
  · intro db t h
    unfold mediaAvaliacoes
    rw [h]
    rfl
  · intro db p hord i j hij hnull
    have hs : (getQueryset db p).Sorted (orderRel db (p.ordenacao.getD "relevancia")) :=
      orderStage_sorted db _ _
    rw [hord] at hs
    simp only [Option.getD_some] at hs
    rw [orderRel_melhor] at hs
    have hle : keyLe (melhorKey db) ((getQueryset db p).get i) ((getQueryset db p).get j) :=
      List.pairwise_iff_get.mp hs i j hij
    cases hmi : mediaAvaliacoes db ((getQueryset db p).get i) with
    | none => rfl
    | some x =>
      exfalso
      unfold keyLe melhorKey at hle
      rw [hmi, hnull] at hle
      exact mediaKey_some_not_le_none (lexHead_le hle)
  · intro db p hord i j hij hd hp2 hv hnull
    have hs : (getQueryset db p).Sorted (orderRel db (p.ordenacao.getD "relevancia")) :=
      orderStage_sorted db _ _
    rw [hord] at hs
    simp only [Option.getD_none] at hs
    rw [orderRel_relevancia] at hs
    have hle : keyLe (relevKey db) ((getQueryset db p).get i) ((getQueryset db p).get j) :=
      List.pairwise_iff_get.mp hs i j hij
    cases hmi : mediaAvaliacoes db ((getQueryset db p).get i) with
    | none => rfl
    | some x =>
      exfalso
      unfold keyLe relevKey at hle
      rw [hd, hp2, hv] at hle
      have h1 := lex_le_of_eq_left hle
      have h2 := lex_le_of_eq_left h1
      have h3 := lex_le_of_eq_left h2
      rw [hmi, hnull] at h3
      exact mediaKey_some_not_le_none (lexHead_le h3)

/-- Fixture: two active therapists with no reviews. -/
def dbC2W : Catalog :=
  { terapeutas := [{ id := 1, nome_exibicao := "Ana" }, { id := 2, nome_exibicao := "Bia" }] }

/-- Fixture: a best-rated sort request. -/
def pC2W : Params := { ordenacao := some "melhor_avaliado" }

theorem c2_amended_witness :
    mediaAvaliacoes dbC2W ((getQueryset dbC2W pC2W).get ⟨0, by decide⟩) = none :=
  c2_amended.2.1 dbC2W pC2W rfl ⟨0, by decide⟩ ⟨1, by decide⟩ (by decide) (by decide)

/-! ## Claim C3: which reviews feed the displayed average -/

/-- Fixture: an active therapist whose only review is INACTIVE with score 5. -/
def tC3 : Terapeuta := { id := 7, nome_exibicao := "Davi" }

/-- Fixture: catalog for the C3 evaluation. -/
def dbC3 : Catalog :=
  { terapeutas := [tC3],
    avaliacoes := [{ id := 1, terapeuta_id := 7, nota := 5, is_active := false }] }

/-- C3: the listing annotation `Avg('avaliacoes__nota')` has no
`is_active` filter, so an inactive 5-star review makes the query-time
average 5 — while the model property `rating_medio` (profile statistic) and
both review counts correctly ignore it. The claim holds for the profile
statistic and the counts but fails for the listing average. -/
theorem c3_code_eval :
    mediaAvaliacoes dbC3 tC3 = some 5 ∧
    ratingMedio dbC3 tC3 = 0 ∧
    totalAvaliacoesAnnot dbC3 tC3 = 0 ∧
    totalAvaliacoesProp dbC3 tC3 = 0 := by
  decide


/-! ## Claim C6: graceful degradation on malformed filter values -/

theorem tiposStage_san (tipos : List String) (ts : List Terapeuta) :
    tiposStage tipos ts = tiposStage (sanTipos tipos) ts := by
  induction tipos generalizing ts with
  | nil => rfl
  | cons a rest ih =>
    by_cases hc : a ∈ sessionTypeChoices
    · have hC : sessionTypeChoices.contains a = true := by simpa using hc
      have hsa : sanTipos (a :: rest) = a :: sanTipos rest := by
        simp [sanTipos, List.filter_cons, hc]
      rw [tiposStage_cons, if_pos hC, hsa, tiposStage_cons, if_pos hC]
      exact ih _
    · have hC : ¬sessionTypeChoices.contains a = true := by simpa using hc
      have hsa : sanTipos (a :: rest) = sanTipos rest := by
        simp [sanTipos, List.filter_cons, hc]
      rw [tiposStage_cons, if_neg hC, hsa]
      exact ih _

theorem cidadeStage_san (c : Option String) (ts : List Terapeuta) :
    cidadeStage c ts = cidadeStage (sanNumId c) ts := by
  cases c with
  | none => rfl
  | some s =>
    by_cases hs : s = ""
    · subst hs
      rfl
    · cases hp : pyIntOpt s with
      | some n =>
        have hsan : sanNumId (some s) = some s := by simp [sanNumId, hs, hp]
        rw [hsan]
      | none =>
        have hsan : sanNumId (some s) = none := by simp [sanNumId, hs, hp]
        rw [hsan]
        simp [cidadeStage, hs, hp]

theorem estadoStage_san (db : Catalog) (c : Option String) (ts : List Terapeuta) :
    estadoStage db c ts = estadoStage db (sanNumId c) ts := by
  cases c with
  | none => rfl
  | some s =>
    by_cases hs : s = ""
    · subst hs
      rfl
    · cases hp : pyIntOpt s with
      | some n =>
        have hsan : sanNumId (some s) = some s := by simp [sanNumId, hs, hp]
        rw [hsan]
      | none =>
        have hsan : sanNumId (some s) = none := by simp [sanNumId, hs, hp]
        rw [hsan]
        simp [estadoStage, hs, hp]

theorem espStage_san (esps : List String) (ts : List Terapeuta) :
    espStage esps ts = espStage (sanEsps esps) ts := by
  cases hm : esps.mapM pyIntOpt with
  | some ids =>
    have hsan : sanEsps esps = esps := by rw [sanEsps, hm]; rfl
    rw [hsan]
  | none =>
    have hsan : sanEsps esps = [] := by rw [sanEsps, hm]; rfl
    rw [hsan]
    cases esps with
    | nil => rfl
    | cons a rest =>
      rw [espStage, if_neg (by simp), hm]
      rfl

theorem acessStage_san (a : Option String) (ts : List Terapeuta) :
    acessStage a ts = acessStage (sanAcess a) ts := by
  by_cases ha : a = some "sim" <;> simp [acessStage, sanAcess, ha]

theorem perfilStage_san (p : Option String) (ts : List Terapeuta) :
    perfilStage p ts = perfilStage (sanChoice profileTypeChoices p) ts := by
  cases p with
  | none => rfl
  | some s =>
    by_cases hc : s ∈ profileTypeChoices
    · have hsan : sanChoice profileTypeChoices (some s) = some s := by
        simp [sanChoice, hc]
      rw [hsan]
    · have hsan : sanChoice profileTypeChoices (some s) = none := by
        simp [sanChoice, hc]
      rw [hsan]
      simp [perfilStage, hc]

theorem paraQuemStage_san (p : Option String) (ts : List Terapeuta) :
    paraQuemStage p ts = paraQuemStage (sanChoice clientTypeChoices p) ts := by
  cases p with
  | none => rfl
  | some s =>
    by_cases hc : s ∈ clientTypeChoices
    · have hsan : sanChoice clientTypeChoices (some s) = some s := by
        simp [sanChoice, hc]
      rw [hsan]
    · have hsan : sanChoice clientTypeChoices (some s) = none := by
        simp [sanChoice, hc]
      rw [hsan]
      simp [paraQuemStage, hc]

theorem buscaStage_san (db : Catalog) (q : Option String) (ts : List Terapeuta) :
    buscaStage db q ts = buscaStage db (sanQ q) ts := by
  cases q with
  | none => rfl
  | some s =>
    by_cases hs : s = ""
    · subst hs
      rfl
    · have hsan : sanQ (some s) = some s := by simp [sanQ, hs]
      rw [hsan]

theorem filteredList_san (db : Catalog) (p : Params) :
    filteredList db p = filteredList db (sanitizeParams p) := by
  show buscaStage db p.q (paraQuemStage p.para_quem (perfilStage p.perfil_profissional
      (acessStage p.acessibilidade (espStage p.especialidades (estadoStage db p.estado
      (cidadeStage p.cidade (tiposStage p.tipos_sessao (db.terapeutas.filter (·.is_active))))))))) =
    buscaStage db (sanQ p.q) (paraQuemStage (sanChoice clientTypeChoices p.para_quem)
      (perfilStage (sanChoice profileTypeChoices p.perfil_profissional)
      (acessStage (sanAcess p.acessibilidade) (espStage (sanEsps p.especialidades)
      (estadoStage db (sanNumId p.estado) (cidadeStage (sanNumId p.cidade)
      (tiposStage (sanTipos p.tipos_sessao) (db.terapeutas.filter (·.is_active)))))))))
  rw [tiposStage_san, cidadeStage_san, estadoStage_san, espStage_san, acessStage_san,
    perfilStage_san, paraQuemStage_san, buscaStage_san]

theorem sanTipos_wf (l : List String) : ∀ s ∈ sanTipos l, s ∈ sessionTypeChoices := by
  intro s hs
  unfold sanTipos at hs
  rw [List.mem_filter] at hs
  simpa using hs.2

theorem sanNumId_wf (o : Option String) (s : String) (h : sanNumId o = some s) :
    (pyIntOpt s).isSome = true := by
  cases o with
  | none => simp [sanNumId] at h
  | some s0 =>
    by_cases hs : s0 = ""
    · simp [sanNumId, hs] at h
    · cases hp : pyIntOpt s0 with
      | none => simp [sanNumId, hs, hp] at h
      | some n =>
        have h2 : sanNumId (some s0) = some s0 := by simp [sanNumId, hs, hp]
        rw [h2] at h
        injection h with h3
        subst h3
        simp [hp]

theorem sanEsps_wf (l : List String) : ((sanEsps l).mapM pyIntOpt).isSome = true := by
  cases hm : l.mapM pyIntOpt with
  | some ids =>
    have h2 : sanEsps l = l := by rw [sanEsps, hm]; rfl
    rw [h2, hm]
    rfl
  | none =>
    have h2 : sanEsps l = [] := by rw [sanEsps, hm]; rfl
    rw [h2]
    rfl

theorem sanAcess_wf (o : Option String) (s : String) (h : sanAcess o = some s) : s = "sim" := by
  by_cases ha : o = some "sim"
  · have h2 : sanAcess o = some "sim" := by simp [sanAcess, ha]
    rw [h2] at h
    injection h with h3
    exact h3.symm
  · have h2 : sanAcess o = none := by simp [sanAcess, ha]
    rw [h2] at h
    cases h

theorem sanChoice_wf (choices : List String) (o : Option String) (s : String)
    (h : sanChoice choices o = some s) : s ∈ choices := by
  cases o with
  | none => simp [sanChoice] at h
  | some s0 =>
    by_cases hc : s0 ∈ choices
    · have h2 : sanChoice choices (some s0) = some s0 := by simp [sanChoice, hc]
      rw [h2] at h
      injection h with h3
      subst h3
      exact hc
    · have h2 : sanChoice choices (some s0) = none := by simp [sanChoice, hc]
      rw [h2] at h
      cases h

theorem sanQ_wf (o : Option String) : sanQ o ≠ some "" := by
  cases o with
  | none => simp [sanQ]
  | some s =>
    by_cases hs : s = ""
    · simp [sanQ, hs]
    · have h2 : sanQ (some s) = some s := by simp [sanQ, hs]
      rw [h2]
      intro hcon
      injection hcon with h3
      exact hs h3

theorem wellFormed_san (p : Params) : WellFormedParams (sanitizeParams p) :=
  ⟨sanTipos_wf p.tipos_sessao,
   fun s h => sanNumId_wf p.cidade s h,
   fun s h => sanNumId_wf p.estado s h,
   sanEsps_wf p.especialidades,
   fun s h => sanAcess_wf p.acessibilidade s h,
   fun s h => sanChoice_wf profileTypeChoices p.perfil_profissional s h,
   fun s h => sanChoice_wf clientTypeChoices p.para_quem s h,
   sanQ_wf p.q⟩

/-- C6: every request, malformed values included, is answered without an
error by the result of applying only the remaining well-formed filters: the
query equals the query over the sanitised parameter map, which is
well-formed. The `try/except` swallowing of `ValueError` is embedded in the
filter stages themselves; a specialty id list containing one malformed id
drops the whole specialty filter, exactly as the single `try` block around
the conversion loop does. -/
theorem c6_graceful_degradation (db : Catalog) (p : Params) :
    getQueryset db p = getQueryset db (sanitizeParams p) ∧
    WellFormedParams (sanitizeParams p) := by
  constructor
  · unfold getQueryset
    rw [filteredList_san]
    rfl
  · exact wellFormed_san p

/-! ## Claims C7 and C8: the contact workflow -/

/-- Fixture: an existing active therapist with no contacts yet. -/
def stC7 : ContactState := { terapeuta := { id := 3, nome_exibicao := "Caio" } }

/-- Fixture: a form with all required fields filled and a NON-NUMERIC
optional specialty-of-interest value. -/
def fC7 : ContactForm :=
  { nome := "Ana", email := "ana@mail.com", assunto := "Consulta",
    mensagem := "Gostaria de agendar.", especialidade_interesse := some "abc" }

/-- C7 counterexample: all four required fields are non-empty, yet the
submission persists NO contact record and leaves the therapist unchanged:
the non-numeric `especialidade_interesse` makes Django raise `ValueError`,
which only the outer generic handler catches, before any write. -/
theorem c7_counterexample :
    pyStrip fC7.nome ≠ "" ∧ pyStrip fC7.email ≠ "" ∧
    pyStrip fC7.assunto ≠ "" ∧ pyStrip fC7.mensagem ≠ "" ∧
    contatarTerapeuta [] stC7 fC7 none = (stC7, ContactOutcome.genericError) := by
  decide

/-- C7 (amended): when additionally the optional specialty-of-interest
value resolves without `ValueError` (absent, empty, or numeric), exactly
one contact record with status `"enviado"` is appended and the therapist
row changes only in `total_contatos`, which grows by exactly 1. -/
theorem c7_amended (esps : List Especialidade) (st : ContactState) (f : ContactForm)
    (ip : Option String) (espOpt : Option Nat)
    (hn : pyStrip f.nome ≠ "") (he : pyStrip f.email ≠ "")
    (ha : pyStrip f.assunto ≠ "") (hm : pyStrip f.mensagem ≠ "")
    (hesp : espInterest esps f.especialidade_interesse = Except.ok espOpt) :
    contatarTerapeuta esps st f ip =
      ({ terapeuta := { st.terapeuta with total_contatos := st.terapeuta.total_contatos + 1 },
         contatos := st.contatos ++
           [{ terapeuta_id := st.terapeuta.id, nome := pyStrip f.nome,
              email := pyStrip f.email, telefone := pyStrip f.telefone,
              assunto := pyStrip f.assunto, mensagem := pyStrip f.mensagem,
              especialidade_interesse := espOpt, status := "enviado", ip_origem := ip }] },
       ContactOutcome.success
         { terapeuta_id := st.terapeuta.id, nome := pyStrip f.nome,
           email := pyStrip f.email, telefone := pyStrip f.telefone,
           assunto := pyStrip f.assunto, mensagem := pyStrip f.mensagem,
           especialidade_interesse := espOpt, status := "enviado", ip_origem := ip }) := by
  unfold contatarTerapeuta
  rw [if_neg (by push_neg; exact ⟨hn, he, ha, hm⟩), hesp]

/-- Fixture: a therapist-state for the C7 witness. -/
def stC7W : ContactState :=
  { terapeuta := { id := 4, nome_exibicao := "Duda", total_contatos := 2 } }

/-- Fixture: a fully valid form without specialty interest. -/
def fC7W : ContactForm :=
  { nome := " Bia ", email := "bia@mail.com", assunto := "Oi", mensagem := "Tudo bem" }

theorem c7_amended_witness :
    contatarTerapeuta [] stC7W fC7W none =
      ({ terapeuta := { stC7W.terapeuta with total_contatos := stC7W.terapeuta.total_contatos + 1 },
         contatos := stC7W.contatos ++
           [{ terapeuta_id := stC7W.terapeuta.id, nome := pyStrip fC7W.nome,
              email := pyStrip fC7W.email, telefone := pyStrip fC7W.telefone,
              assunto := pyStrip fC7W.assunto, mensagem := pyStrip fC7W.mensagem,
              especialidade_interesse := none, status := "enviado", ip_origem := none }] },
       ContactOutcome.success
         { terapeuta_id := stC7W.terapeuta.id, nome := pyStrip fC7W.nome,
           email := pyStrip fC7W.email, telefone := pyStrip fC7W.telefone,
           assunto := pyStrip fC7W.assunto, mensagem := pyStrip fC7W.mensagem,
           especialidade_interesse := none, status := "enviado", ip_origem := none }) :=
  c7_amended [] stC7W fC7W none none (by decide) (by decide) (by decide) (by decide) rfl

/-- C8: a submission in which some required field is empty or whitespace is
rejected with the validation outcome and changes nothing: no contact row,
and the therapist (counter included) is untouched. -/
theorem c8_missing_fields_rejected (esps : List Especialidade) (st : ContactState)
    (f : ContactForm) (ip : Option String)
    (h : pyStrip f.nome = "" ∨ pyStrip f.email = "" ∨
         pyStrip f.assunto = "" ∨ pyStrip f.mensagem = "") :
    contatarTerapeuta esps st f ip = (st, ContactOutcome.invalidForm) := by
  unfold contatarTerapeuta
  rw [if_pos h]

/-- Fixture: a form whose message is whitespace only. -/
def fC8W : ContactForm :=
  { nome := "Eva", email := "eva@mail.com", assunto := "Oi", mensagem := "   " }

theorem c8_missing_fields_witness :
    contatarTerapeuta [] stC7W fC8W none = (stC7W, ContactOutcome.invalidForm) :=
  c8_missing_fields_rejected [] stC7W fC8W none (by decide)

/-! ## Claim C9: the SiteConfiguration singleton -/

/-- Invariant maintained by the intended workflow: either the table is
empty with a fresh counter, or it holds exactly the `pk = 1` row. -/
def ConfigInv (db : ConfigDB) : Prop :=
  (db.rows = [] ∧ db.nextId = 1) ∨ ∃ r, db.rows = [r] ∧ r.pk = 1

theorem configStep_inv (db : ConfigDB) (op : ConfigOp) (h : ConfigInv db) :
    ConfigInv (match op with
      | ConfigOp.saveNew =>
        match scSave db none "Espaço Vital" with
        | Except.ok d => d
        | Except.error _ => db
      | ConfigOp.getCfg => (getConfig db).1) := by
  cases op with
  | saveNew =>
    rcases h with ⟨hr, hn⟩ | ⟨r, hr, hpk⟩
    · have hsave : scSave db none "Espaço Vital" =
          Except.ok { rows := [{ pk := 1 }], nextId := 2 } := by
        simp [scSave, hr, hn]
      rw [hsave]
      exact Or.inr ⟨{ pk := 1 }, rfl, rfl⟩
    · have hsave : scSave db none "Espaço Vital" =
          Except.error "Só pode existir uma configuração do site" := by
        simp [scSave, hr]
      rw [hsave]
      exact Or.inr ⟨r, hr, hpk⟩
  | getCfg =>
    rcases h with ⟨hr, hn⟩ | ⟨r, hr, hpk⟩
    · have hget : (getConfig db).1 = { db with rows := db.rows ++ [{ pk := 1 }], nextId := max db.nextId 2 } := by
        simp [getConfig, hr]
      rw [hget, hr]
      exact Or.inr ⟨{ pk := 1 }, rfl, rfl⟩
    · have hfind : db.rows.find? (fun x => x.pk == 1) = some r := by
        rw [hr]
        simp [List.find?, hpk]
      have hget : (getConfig db).1 = db := by
        simp [getConfig, hfind]
      rw [hget]
      exact Or.inr ⟨r, hr, hpk⟩

theorem runConfigOps_inv (ops : List ConfigOp) (db : ConfigDB) (h : ConfigInv db) :
    ConfigInv (runConfigOps ops db) := by
  induction ops generalizing db with
  | nil => exact h
  | cons op rest ih => exact ih _ (configStep_inv db op h)

/-- Fixture: the table right after a first `get_config` on an empty store. -/
def dbOneCfg : ConfigDB := (getConfig {}).1

/-- C9 counterexample: with one configuration row present, saving a new
`SiteConfiguration` that carries an explicit unused pk is NOT rejected —
the guard `if not self.pk and ...exists()` only fires for pk-less
instances — and a second row is inserted. -/
theorem c9_counterexample :
    dbOneCfg.rows.length = 1 ∧
    (scSave dbOneCfg (some 2) "X").toOption.map (fun d => d.rows.length) = some 2 := by
  decide

/-- C9 (amended): a pk-less save is rejected whenever a row exists;
`get_config` always returns a `pk = 1` row taken from (or inserted into)
the table; and along any sequence of pk-less saves and `get_config` calls
from an empty store the table never holds more than one row. Saving with
an explicit unused pk escapes the guard (see the counterexample). -/
theorem c9_amended :
    (∀ ops : List ConfigOp, (runConfigOps ops {}).rows.length ≤ 1) ∧
    (∀ db : ConfigDB, db.rows ≠ [] →
        scSave db none "Espaço Vital" =
          Except.error "Só pode existir uma configuração do site") ∧
    (∀ db : ConfigDB, (getConfig db).2.pk = 1 ∧ (getConfig db).2 ∈ (getConfig db).1.rows) := by
  refine ⟨?_, ?_, ?_⟩
  · intro ops
    have h := runConfigOps_inv ops {} (Or.inl ⟨rfl, rfl⟩)
    rcases h with ⟨hr, _⟩ | ⟨r, hr, _⟩ <;> simp [hr]
  · intro db h
    have hne : (!db.rows.isEmpty) = true := by
      cases hr : db.rows with
      | nil => exact absurd hr h
      | cons a l => rfl
    unfold scSave
    rw [if_pos hne]
  · intro db
    unfold getConfig
    cases hf : db.rows.find? (fun r => r.pk == 1) with
    | some c =>
      constructor
      · have h2 := List.find?_some hf
        simpa using h2
      · exact List.mem_of_find?_eq_some hf
    | none =>
      constructor
      · rfl
      · simp

theorem c9_amended_witness :
    scSave dbOneCfg none "Espaço Vital" =
      Except.error "Só pode existir uma configuração do site" :=
  c9_amended.2.1 dbOneCfg (by decide)

/-! ## Claim C10: the autocomplete endpoint -/

/-- Fixture: a verified active therapist with no reviews. -/
def tA10 : Terapeuta := { id := 1, nome_exibicao := "Maria A", verificado := true }

/-- Fixture: a verified active therapist with one 5-star review. -/
def tB10 : Terapeuta := { id := 2, nome_exibicao := "Maria B", verificado := true }

/-- Fixture: catalog for the C10 counterexample. -/
def dbC10 : Catalog :=
  { terapeutas := [tB10, tA10],
    avaliacoes := [{ id := 1, terapeuta_id := 2, nota := 5 }] }

/-- C10 counterexample: with equal featured/premium flags, the review-less
therapist (serialised rating 0.0) is returned BEFORE the one rated 5 — the
`-media_avaliacoes` key places the SQL `NULL` average first, so the result
is not descending in the rating the endpoint reports. -/
theorem c10_counterexample :
    buscaTerapeutasAjax dbC10 "Maria" = [tA10, tB10] ∧
    ajaxRating dbC10 tA10 = 0 ∧ ajaxRating dbC10 tB10 = 5 ∧
    tA10.destaque = tB10.destaque ∧ tA10.premium = tB10.premium := by
  decide

/-- C10 (amended): a stripped query shorter than 2 characters yields the
empty list; otherwise every entry is active and verified, the sequence is
sorted by featured then premium (descending) then annotated average
descending with `NULL` averages first, and at most 8 entries are returned. -/
theorem c10_amended (db : Catalog) (q : String) :
    ((pyStrip q).length < 2 → buscaTerapeutasAjax db q = []) ∧
    (∀ t ∈ buscaTerapeutasAjax db q, t.is_active = true ∧ t.verificado = true) ∧
    (buscaTerapeutasAjax db q).Sorted (keyLe (ajaxKey db)) ∧
    (buscaTerapeutasAjax db q).length ≤ 8 := by
  refine ⟨?_, ?_, ?_, ?_⟩
  · intro hlen
    simp only [buscaTerapeutasAjax]
    rw [if_pos hlen]
  · intro t ht
    simp only [buscaTerapeutasAjax] at ht
    split at ht
    · exact absurd ht (by simp)
    · have h1 := List.mem_of_mem_take ht
      have h2 := (sortByKey_perm _ _).mem_iff.mp h1
      have h3 := List.of_mem_filter h2
      simp only [Bool.and_eq_true] at h3
      exact ⟨h3.1.1, h3.1.2⟩
  · simp only [buscaTerapeutasAjax]
    split
    · exact List.sorted_nil
    · exact List.Pairwise.sublist (List.take_sublist _ _) (sortByKey_sorted _ _)
  · simp only [buscaTerapeutasAjax]
    split
    · simp
    · rw [List.length_take]
      exact min_le_left _ _

theorem c10_amended_witness :
    buscaTerapeutasAjax dbC4 "x" = [] ∧
    tActive.is_active = true ∧ tActive.verificado = true :=
  ⟨(c10_amended dbC4 "x").1 (by decide),
   (c10_amended dbC4 "yan").2.1 tActive (by decide)⟩
